import Mathlib

/-!
Shallow embedding of the UE RAN simulator charm (src/charm.py) and proofs of
the specified convergence, lifecycle and frame properties.

The charm logic is modelled as pure state-passing functions.  External
collaborators (container filesystem, pebble supervisor, template engine) are
modelled by an environment record that the convergence engine reads; every
externally visible side effect (file push, layer apply, restart, service
start and stop commands) is recorded in an effects log so that the call-count
properties of the specification can be stated directly.
-/

/-- Constant BASE_CONFIG_PATH from the source. -/
def BASE_CONFIG_PATH : String := "/etc"

/-- Constant UE_CONFIG_FILE_NAME from the source. -/
def UE_CONFIG_FILE_NAME : String := "ue.yaml"

/-- The managed config file path, as interpolated in the source. -/
def ueConfigFilePath : String := BASE_CONFIG_PATH ++ "/" ++ UE_CONFIG_FILE_NAME

/-- A pebble service definition: the fields the charm layer sets. -/
structure ServiceDef where
  override : String
  startup : String
  command : String
deriving DecidableEq

/-- The desired pebble layer services built by the uesim_pebble_layer property. -/
def uesim_pebble_layer_services : List (String × ServiceDef) :=
  [("uesim",
    { override := "replace", startup := "enabled",
      command := "nr-ue -c " ++ BASE_CONFIG_PATH ++ "/" ++ UE_CONFIG_FILE_NAME })]

/-- The nine Juju configuration values, each optional at the source, mirroring
the get_..._from_config accessors.  Field order follows the validator. -/
structure Config where
  gnb_address : Option String
  supi : Option String
  mcc : Option String
  mnc : Option String
  usim_key : Option String
  sd : Option String
  sst : Option Int
  usim_opc : Option String
  imei : Option String
deriving DecidableEq

/-- Python truthiness test for an optional string: None and the empty string
are falsy. -/
def strFalsy : Option String → Bool
  | none => true
  | some s => s = ""

/-- Python truthiness test for an optional integer: None and zero are falsy. -/
def intFalsy : Option Int → Bool
  | none => true
  | some n => n = 0

/-- Embedding of get_invalid_configs: appends each missing field name in the
fixed source order. -/
def get_invalid_configs (cfg : Config) : List String :=
  (if strFalsy cfg.gnb_address then ["gnb-address"] else []) ++
  (if strFalsy cfg.supi then ["supi"] else []) ++
  (if strFalsy cfg.mcc then ["mcc"] else []) ++
  (if strFalsy cfg.mnc then ["mnc"] else []) ++
  (if strFalsy cfg.usim_key then ["usim-key"] else []) ++
  (if strFalsy cfg.sd then ["sd"] else []) ++
  (if intFalsy cfg.sst then ["sst"] else []) ++
  (if strFalsy cfg.usim_opc then ["usim-opc"] else []) ++
  (if strFalsy cfg.imei then ["imei"] else [])

/-- The required field names in the fixed order the validator checks them. -/
def requiredFields : List String :=
  ["gnb-address", "supi", "mcc", "mnc", "usim-key", "sd", "sst", "usim-opc", "imei"]

/-- Whether a named required field is missing (falsy) in a configuration. -/
def fieldMissing (cfg : Config) : String → Bool
  | "gnb-address" => strFalsy cfg.gnb_address
  | "supi" => strFalsy cfg.supi
  | "mcc" => strFalsy cfg.mcc
  | "mnc" => strFalsy cfg.mnc
  | "usim-key" => strFalsy cfg.usim_key
  | "sd" => strFalsy cfg.sd
  | "sst" => intFalsy cfg.sst
  | "usim-opc" => strFalsy cfg.usim_opc
  | "imei" => strFalsy cfg.imei
  | _ => false

/-- The single quote character, used by the Python list repr. -/
def squote : String := String.singleton (Char.ofNat 39)

/-- Python repr of a list of strings, as produced by the f-string in the
Blocked status message. -/
def pyReprList (xs : List String) : String :=
  "[" ++ String.intercalate ", " (xs.map (fun s => squote ++ s ++ squote)) ++ "]"

/-- Unit status values the charm can set. -/
inductive Status where
  | blocked : String → Status
  | waiting : String → Status
  | active : Status
deriving DecidableEq

/-- Persistent charm state: the stored ue_running flag and the current unit
status. -/
structure CharmState where
  ue_running : Bool
  unitStatus : Status
deriving DecidableEq

/-- Observed environment for one invocation: the configuration source, the
container and storage probes, the existing managed file content (none when the
file is absent), the current pebble plan services, the template renderer
(an external collaborator consumed as a pure function, none modelling a
template error), and whether a push succeeds (false modelling an IOError). -/
structure Env where
  config : Config
  can_connect : Bool
  storagePresent : Bool
  fileContent : Option String
  planServices : List (String × ServiceDef)
  renderFn : Config → Option String
  writeOk : Bool

/-- Log of externally visible side effects of one invocation. -/
structure Effects where
  writes : List (String × String)
  writeAttempts : Nat
  addLayerCalls : Nat
  restartCalls : Nat
  startCalls : Nat
  stopCalls : Nat
deriving DecidableEq

/-- The empty effects log. -/
def noEffects : Effects :=
  { writes := [], writeAttempts := 0, addLayerCalls := 0, restartCalls := 0,
    startCalls := 0, stopCalls := 0 }

/-- Faults that propagate out of an invocation. -/
inductive Fault where
  | renderError
  | writeError
deriving DecidableEq

/-- Embedding of config_file_content_matches: an absent file never matches;
otherwise the pulled content is compared for exact equality. -/
def config_file_content_matches (env : Env) (content : String) : Bool :=
  match env.fileContent with
  | none => false
  | some existing => if existing ≠ content then false else true

/-- Embedding of configure_uesim_workload: the layer is added (combine
semantics) when the current plan services differ from the desired layer or a
restart was requested, and the restart primitive fires only when the stored
ue_running flag is true. -/
def configure_uesim_workload (env : Env) (ue_running : Bool) (restart : Bool) : Effects :=
  if env.planServices ≠ uesim_pebble_layer_services ∨ restart = true then
    { noEffects with addLayerCalls := 1,
                     restartCalls := if ue_running then 1 else 0 }
  else noEffects

/-- Embedding of the configure event handler.  Returns the effects log and
either the status the handler assigns or the fault it raises.  The stored
ue_running flag is read (for the restart gate) but never written here. -/
def configure (env : Env) (ue_running : Bool) : Effects × Except Fault Status :=
  if get_invalid_configs env.config ≠ [] then
    (noEffects,
      Except.ok (Status.blocked
        ("Configurations are invalid: " ++ pyReprList (get_invalid_configs env.config))))
  else if env.can_connect = false then
    (noEffects, Except.ok (Status.waiting "Waiting for container to be ready"))
  else if env.storagePresent = false then
    (noEffects, Except.ok (Status.waiting "Waiting for storage to be attached"))
  else
    match env.renderFn env.config with
    | none => (noEffects, Except.error Fault.renderError)
    | some content =>
      if config_file_content_matches env content = false then
        if env.writeOk = false then
          ({ noEffects with writeAttempts := 1 }, Except.error Fault.writeError)
        else
          let eff := configure_uesim_workload env ue_running true
          ({ eff with writes := [(ueConfigFilePath, content)], writeAttempts := 1 },
            Except.ok Status.active)
      else
        (noEffects, Except.ok Status.active)

/-- Running configure against a charm state: on success the unit status is
committed, on a fault the previous state (status included) is retained. -/
def runConfigure (env : Env) (st : CharmState) : Effects × CharmState × Option Fault :=
  match configure env st.ue_running with
  | (eff, Except.ok status) => (eff, { st with unitStatus := status }, none)
  | (eff, Except.error f) => (eff, st, some f)

/-- Embedding of on_start_ue_action: reconcile first, then issue one start
command and set the flag only when the stored flag is false. -/
def on_start_ue_action (env : Env) (st : CharmState) : Effects × CharmState × Option Fault :=
  match runConfigure env st with
  | (eff, st1, some f) => (eff, st1, some f)
  | (eff, st1, none) =>
    if st1.ue_running = false then
      ({ eff with startCalls := eff.startCalls + 1 }, { st1 with ue_running := true }, none)
    else (eff, st1, none)

/-- Embedding of on_stop_ue_action: reconcile first, then issue one stop
command and clear the flag only when the stored flag is true. -/
def on_stop_ue_action (env : Env) (st : CharmState) : Effects × CharmState × Option Fault :=
  match runConfigure env st with
  | (eff, st1, some f) => (eff, st1, some f)
  | (eff, st1, none) =>
    if st1.ue_running = true then
      ({ eff with stopCalls := eff.stopCalls + 1 }, { st1 with ue_running := false }, none)
    else (eff, st1, none)

/-- A fully populated sample configuration, used by the concrete witnesses. -/
def sampleConfig : Config :=
  { gnb_address := some "10.0.0.1", supi := some "imsi-001010000000001",
    mcc := some "001", mnc := some "01", usim_key := some "5122250214c33e723a5dd523fc145fc0",
    sd := some "102030", sst := some 1, usim_opc := some "981d464c7c52eb6e5036234984ad0bcf",
    imei := some "356938035643803" }

/-- A sample deterministic renderer, standing for the external template
engine in concrete witnesses. -/
def sampleRender : Config → Option String := fun _ => some "rendered-ue-config"

/-- Characterization of the content match check as equality with the existing
file content. -/
lemma content_matches_iff (env : Env) (c : String) :
    config_file_content_matches env c = true ↔ env.fileContent = some c := by
  unfold config_file_content_matches
  cases h : env.fileContent with
  | none => simp
  | some s => by_cases hs : s = c <;> simp [hs]

/-- A mismatching or absent file makes the match check return false. -/
lemma content_matches_false (env : Env) (c : String) (h : env.fileContent ≠ some c) :
    config_file_content_matches env c = false := by
  cases hb : config_file_content_matches env c with
  | false => rfl
  | true => exact absurd ((content_matches_iff env c).mp hb) h

/-- The effects of running configure are the effects of the inner handler. -/
lemma runConfigure_effects (env : Env) (st : CharmState) :
    (runConfigure env st).1 = (configure env st.ue_running).1 := by
  unfold runConfigure
  rcases hc : configure env st.ue_running with ⟨eff, r⟩
  cases r <;> rfl

/-- Running configure never changes the stored ue_running flag, on success or
on fault. -/
lemma runConfigure_running (env : Env) (st : CharmState) :
    ((runConfigure env st).2.1).ue_running = st.ue_running := by
  unfold runConfigure
  rcases hc : configure env st.ue_running with ⟨eff, r⟩
  cases r <;> rfl

/-- The workload handler never issues a start command. -/
lemma configure_uesim_workload_startCalls (env : Env) (b r : Bool) :
    (configure_uesim_workload env b r).startCalls = 0 := by
  unfold configure_uesim_workload
  split <;> rfl

/-- The workload handler never issues a stop command. -/
lemma configure_uesim_workload_stopCalls (env : Env) (b r : Bool) :
    (configure_uesim_workload env b r).stopCalls = 0 := by
  unfold configure_uesim_workload
  split <;> rfl

/-- The workload handler never issues a restart when the stored flag is
false. -/
lemma configure_uesim_workload_restart_off (env : Env) (r : Bool) :
    (configure_uesim_workload env false r).restartCalls = 0 := by
  unfold configure_uesim_workload
  split <;> rfl

/-- The status or fault produced by configure does not depend on the stored
ue_running flag. -/
lemma configure_snd_indep (env : Env) (b b' : Bool) :
    (configure env b).2 = (configure env b').2 := by
  unfold configure
  by_cases h1 : get_invalid_configs env.config = []
  · by_cases h2 : env.can_connect = false
    · simp [h1, h2]
    · by_cases h3 : env.storagePresent = false
      · simp [h1, h2, h3]
      · cases hr : env.renderFn env.config with
        | none => simp [h1, h2, h3, hr]
        | some content =>
          by_cases h4 : config_file_content_matches env content = false
          · by_cases h5 : env.writeOk = false <;> simp [h1, h2, h3, hr, h4, h5]
          · simp [h1, h2, h3, hr, h4]
  · simp [h1]

/-- Configure never issues a start command. -/
lemma configure_startCalls (env : Env) (b : Bool) :
    ((configure env b).1).startCalls = 0 := by
  unfold configure
  by_cases h1 : get_invalid_configs env.config = []
  · by_cases h2 : env.can_connect = false
    · simp [h1, h2, noEffects]
    · by_cases h3 : env.storagePresent = false
      · simp [h1, h2, h3, noEffects]
      · cases hr : env.renderFn env.config with
        | none => simp [h1, h2, h3, hr, noEffects]
        | some content =>
          by_cases h4 : config_file_content_matches env content = false
          · by_cases h5 : env.writeOk = false <;>
              simp [h1, h2, h3, hr, h4, h5, noEffects, configure_uesim_workload_startCalls]
          · simp [h1, h2, h3, hr, h4, noEffects]
  · simp [h1, noEffects]

/-- Configure never issues a stop command. -/
lemma configure_stopCalls (env : Env) (b : Bool) :
    ((configure env b).1).stopCalls = 0 := by
  unfold configure
  by_cases h1 : get_invalid_configs env.config = []
  · by_cases h2 : env.can_connect = false
    · simp [h1, h2, noEffects]
    · by_cases h3 : env.storagePresent = false
      · simp [h1, h2, h3, noEffects]
      · cases hr : env.renderFn env.config with
        | none => simp [h1, h2, h3, hr, noEffects]
        | some content =>
          by_cases h4 : config_file_content_matches env content = false
          · by_cases h5 : env.writeOk = false <;>
              simp [h1, h2, h3, hr, h4, h5, noEffects, configure_uesim_workload_stopCalls]
          · simp [h1, h2, h3, hr, h4, noEffects]
  · simp [h1, noEffects]

/-- Configure never issues a restart when the stored flag is false. -/
lemma configure_restart_off (env : Env) :
    ((configure env false).1).restartCalls = 0 := by
  unfold configure
  by_cases h1 : get_invalid_configs env.config = []
  · by_cases h2 : env.can_connect = false
    · simp [h1, h2, noEffects]
    · by_cases h3 : env.storagePresent = false
      · simp [h1, h2, h3, noEffects]
      · cases hr : env.renderFn env.config with
        | none => simp [h1, h2, h3, hr, noEffects]
        | some content =>
          by_cases h4 : config_file_content_matches env content = false
          · by_cases h5 : env.writeOk = false <;>
              simp [h1, h2, h3, hr, h4, h5, noEffects, configure_uesim_workload_restart_off]
          · simp [h1, h2, h3, hr, h4, noEffects]
  · simp [h1, noEffects]

/-- Whether running configure faults does not depend on the charm state. -/
lemma runConfigure_fault_indep (env : Env) (st st' : CharmState) :
    (runConfigure env st).2.2 = (runConfigure env st').2.2 := by
  unfold runConfigure
  have h := configure_snd_indep env st.ue_running st'.ue_running
  rcases hc : configure env st.ue_running with ⟨eff, r⟩
  rcases hc' : configure env st'.ue_running with ⟨eff', r'⟩
  rw [hc, hc'] at h
  simp only at h
  subst h
  cases r <;> rfl

/-- On the content-match path (valid config, reachable container, storage
present, rendered text equal to the existing file content) configure commits
Active and produces no effects at all. -/
lemma runConfigure_content_match (env : Env) (st : CharmState) (c : String)
    (hvalid : get_invalid_configs env.config = [])
    (hconn : env.can_connect = true)
    (hstor : env.storagePresent = true)
    (hrender : env.renderFn env.config = some c)
    (hfile : env.fileContent = some c) :
    runConfigure env st = (noEffects, { st with unitStatus := Status.active }, none) := by
  have hm : config_file_content_matches env c = true := (content_matches_iff env c).mpr hfile
  unfold runConfigure configure
  simp [hvalid, hconn, hstor, hrender, hm]

/-- Sample environment whose managed file already equals the rendered text and
whose plan equals the desired layer. -/
def sampleEnvMatch : Env :=
  { config := sampleConfig, can_connect := true, storagePresent := true,
    fileContent := some "rendered-ue-config",
    planServices := uesim_pebble_layer_services,
    renderFn := sampleRender, writeOk := true }

/-- Sample environment with a matching file but an empty (drifted) plan. -/
def sampleEnvPlanDrift : Env :=
  { sampleEnvMatch with planServices := [] }

/-- Sample environment with no existing config file. -/
def sampleEnvFresh : Env :=
  { sampleEnvMatch with fileContent := none }

/-- Sample charm state with the workload not started. -/
def stIdle : CharmState := { ue_running := false, unitStatus := Status.active }

/-- Sample charm state with the workload started. -/
def stRunning : CharmState := { ue_running := true, unitStatus := Status.active }

/-- C1: for a fully populated configuration, when the managed file content
already equals the rendered configuration, invoking the convergence engine
twice yields a faultless second invocation with zero writeFile calls and zero
restarts (in fact both invocations have no effects at all). -/
theorem configure_idempotent_second_invocation
    (env : Env) (st : CharmState) (c : String)
    (hvalid : get_invalid_configs env.config = [])
    (hconn : env.can_connect = true)
    (hstor : env.storagePresent = true)
    (hrender : env.renderFn env.config = some c)
    (hfile : env.fileContent = some c) :
    ∃ eff1 st1 eff2 st2,
      runConfigure env st = (eff1, st1, none) ∧
      runConfigure env st1 = (eff2, st2, none) ∧
      eff2.writes = [] ∧ eff2.restartCalls = 0 := by
  refine ⟨noEffects, { st with unitStatus := Status.active }, noEffects,
    { st with unitStatus := Status.active }, ?_, ?_, rfl, rfl⟩
  · exact runConfigure_content_match env st c hvalid hconn hstor hrender hfile
  · exact runConfigure_content_match env { st with unitStatus := Status.active } c
      hvalid hconn hstor hrender hfile

/-- C1 witness: the idempotence theorem applied at a concrete matching
environment and state. -/
theorem configure_idempotent_second_invocation_witness :
    ∃ eff1 st1 eff2 st2,
      runConfigure sampleEnvMatch stIdle = (eff1, st1, none) ∧
      runConfigure sampleEnvMatch st1 = (eff2, st2, none) ∧
      eff2.writes = [] ∧ eff2.restartCalls = 0 :=
  configure_idempotent_second_invocation sampleEnvMatch stIdle "rendered-ue-config"
    (by decide) rfl rfl rfl rfl

/-- C3 counterexample: with valid config, reachable container, storage present
and matching file content, but a current plan whose service set differs
structurally from the desired layer (and the run flag true), the convergence
engine performs zero add-layer and zero restart calls — the supervisor layer
is not reconciled on the match path, contrary to the claim. -/
theorem match_path_layer_not_reconciled_cex :
    get_invalid_configs sampleEnvPlanDrift.config = [] ∧
    sampleEnvPlanDrift.can_connect = true ∧
    sampleEnvPlanDrift.storagePresent = true ∧
    sampleEnvPlanDrift.renderFn sampleEnvPlanDrift.config = sampleEnvPlanDrift.fileContent ∧
    sampleEnvPlanDrift.planServices ≠ uesim_pebble_layer_services ∧
    stRunning.ue_running = true ∧
    (runConfigure sampleEnvPlanDrift stRunning).1.addLayerCalls = 0 ∧
    (runConfigure sampleEnvPlanDrift stRunning).1.restartCalls = 0 := by
  decide

/-- C3 amended: with valid config, reachable container, storage present and
existing file content byte-equal to the rendered config, the convergence
engine performs no supervisor-layer reconciliation at all — zero add-layer and
zero restart calls regardless of plan drift — and commits Active with zero
writeFile calls. -/
theorem match_path_skips_layer_reconciliation
    (env : Env) (st : CharmState) (c : String)
    (hvalid : get_invalid_configs env.config = [])
    (hconn : env.can_connect = true)
    (hstor : env.storagePresent = true)
    (hrender : env.renderFn env.config = some c)
    (hfile : env.fileContent = some c) :
    runConfigure env st = (noEffects, { st with unitStatus := Status.active }, none) :=
  runConfigure_content_match env st c hvalid hconn hstor hrender hfile

/-- C3 witness: the amended theorem applied at a concrete matching environment
with a drifted plan. -/
theorem match_path_skips_layer_reconciliation_witness :
    runConfigure sampleEnvPlanDrift stRunning =
      (noEffects, { stRunning with unitStatus := Status.active }, none) :=
  match_path_skips_layer_reconciliation sampleEnvPlanDrift stRunning "rendered-ue-config"
    (by decide) rfl rfl rfl rfl

/-- Helper for the stable-order characterization: prepending one conditional
field to both shapes of the missing-field list. -/
lemma filter_step (b : Bool) (x : String) (l r : List String) (h : l = r) :
    ((if b then [x] else []) ++ l) = (if b then x :: r else r) := by
  cases b <;> simp [h]

/-- Sample configuration with two missing fields: an empty supi and a zero
sst. -/
def sampleConfigMissing : Config :=
  { sampleConfig with supi := some "", sst := some 0 }

/-- Sample environment carrying the invalid configuration. -/
def sampleEnvMissing : Env :=
  { sampleEnvMatch with config := sampleConfigMissing }

/-- C2: whenever at least one required field is missing (absent, empty string,
or zero), the engine commits Blocked with a reason listing exactly the missing
field names — the validator output equals the ordered required-field list
filtered by missingness — and performs no write, layer-apply, restart, start
or stop calls. -/
theorem blocked_lists_missing_fields_no_side_effects
    (env : Env) (st : CharmState)
    (h : get_invalid_configs env.config ≠ []) :
    runConfigure env st =
      (noEffects,
        { st with
            unitStatus :=
              Status.blocked
                ("Configurations are invalid: "
                  ++ pyReprList (get_invalid_configs env.config)) },
        none) ∧
    get_invalid_configs env.config =
      requiredFields.filter (fun f => fieldMissing env.config f) := by
  constructor
  · unfold runConfigure configure
    simp [h]
  · have e1 : fieldMissing env.config "gnb-address" = strFalsy env.config.gnb_address := rfl
    have e2 : fieldMissing env.config "supi" = strFalsy env.config.supi := rfl
    have e3 : fieldMissing env.config "mcc" = strFalsy env.config.mcc := rfl
    have e4 : fieldMissing env.config "mnc" = strFalsy env.config.mnc := rfl
    have e5 : fieldMissing env.config "usim-key" = strFalsy env.config.usim_key := rfl
    have e6 : fieldMissing env.config "sd" = strFalsy env.config.sd := rfl
    have e7 : fieldMissing env.config "sst" = intFalsy env.config.sst := rfl
    have e8 : fieldMissing env.config "usim-opc" = strFalsy env.config.usim_opc := rfl
    have e9 : fieldMissing env.config "imei" = strFalsy env.config.imei := rfl
    simp only [get_invalid_configs, requiredFields, List.filter_cons, List.filter_nil,
      List.append_assoc, e1, e2, e3, e4, e5, e6, e7, e8, e9]
    apply filter_step
    apply filter_step
    apply filter_step
    apply filter_step
    apply filter_step
    apply filter_step
    apply filter_step
    apply filter_step
    rfl

/-- C2 witness: the Blocked theorem applied at a concrete configuration with
an empty supi and a zero sst. -/
theorem blocked_lists_missing_fields_no_side_effects_witness :
    runConfigure sampleEnvMissing stIdle =
      (noEffects,
        { stIdle with
            unitStatus :=
              Status.blocked
                ("Configurations are invalid: "
                  ++ pyReprList (get_invalid_configs sampleEnvMissing.config)) },
        none) ∧
    get_invalid_configs sampleEnvMissing.config =
      requiredFields.filter (fun f => fieldMissing sampleEnvMissing.config f) :=
  blocked_lists_missing_fields_no_side_effects sampleEnvMissing stIdle (by decide)

/-- C4: with valid config, reachable container, present storage, and an
existing file content different from the rendered text (an absent file
included), the engine pushes the rendered config to the managed path exactly
once, force-applies the supervisor layer (one add-layer call, restart gated on
the stored run flag), and commits Active. -/
theorem mismatch_writes_once_and_force_applies_layer
    (env : Env) (st : CharmState) (c : String)
    (hvalid : get_invalid_configs env.config = [])
    (hconn : env.can_connect = true)
    (hstor : env.storagePresent = true)
    (hrender : env.renderFn env.config = some c)
    (hfile : env.fileContent ≠ some c)
    (hwrite : env.writeOk = true) :
    runConfigure env st =
      ({ writes := [(ueConfigFilePath, c)], writeAttempts := 1, addLayerCalls := 1,
         restartCalls := if st.ue_running then 1 else 0, startCalls := 0, stopCalls := 0 },
       { st with unitStatus := Status.active }, none) := by
  have hm : config_file_content_matches env c = false := content_matches_false env c hfile
  unfold runConfigure configure configure_uesim_workload
  simp [hvalid, hconn, hstor, hrender, hm, hwrite, noEffects]

/-- C4 witness: the mismatch theorem applied at a concrete environment with no
existing config file and a stopped workload. -/
theorem mismatch_writes_once_and_force_applies_layer_witness :
    runConfigure sampleEnvFresh stIdle =
      ({ writes := [(ueConfigFilePath, "rendered-ue-config")], writeAttempts := 1,
         addLayerCalls := 1,
         restartCalls := if stIdle.ue_running then 1 else 0, startCalls := 0, stopCalls := 0 },
       { stIdle with unitStatus := Status.active }, none) :=
  mismatch_writes_once_and_force_applies_layer sampleEnvFresh stIdle "rendered-ue-config"
    (by decide) rfl rfl rfl (by decide) rfl

/-- Sample environment with an unreachable container. -/
def sampleEnvNoConnect : Env :=
  { sampleEnvMatch with can_connect := false }

/-- Sample environment with the storage path absent. -/
def sampleEnvNoStorage : Env :=
  { sampleEnvMatch with storagePresent := false }

/-- C5: with a fully populated configuration, an unreachable container yields
Waiting for the container with no effects and no fault; a reachable container
with absent storage yields Waiting for storage, equally without side effects
or fault. -/
theorem waiting_statuses_no_side_effects
    (env : Env) (st : CharmState)
    (hvalid : get_invalid_configs env.config = []) :
    (env.can_connect = false →
      runConfigure env st =
        (noEffects,
         { st with unitStatus := Status.waiting "Waiting for container to be ready" },
         none)) ∧
    (env.can_connect = true → env.storagePresent = false →
      runConfigure env st =
        (noEffects,
         { st with unitStatus := Status.waiting "Waiting for storage to be attached" },
         none)) := by
  constructor
  · intro h1
    unfold runConfigure configure
    simp [hvalid, h1]
  · intro h1 h2
    unfold runConfigure configure
    simp [hvalid, h1, h2]

/-- C5 witness: the Waiting theorem applied at concrete unreachable-container
and missing-storage environments. -/
theorem waiting_statuses_no_side_effects_witness :
    runConfigure sampleEnvNoConnect stIdle =
      (noEffects,
       { stIdle with unitStatus := Status.waiting "Waiting for container to be ready" },
       none) ∧
    runConfigure sampleEnvNoStorage stIdle =
      (noEffects,
       { stIdle with unitStatus := Status.waiting "Waiting for storage to be attached" },
       none) :=
  ⟨(waiting_statuses_no_side_effects sampleEnvNoConnect stIdle (by decide)).1 rfl,
   (waiting_statuses_no_side_effects sampleEnvNoStorage stIdle (by decide)).2 rfl rfl⟩

/-- Sample environment whose renderer fails with a template error. -/
def sampleEnvRenderFail : Env :=
  { sampleEnvMatch with renderFn := fun _ => none }

/-- Sample environment with no existing file and a failing push. -/
def sampleEnvWriteFail : Env :=
  { sampleEnvFresh with writeOk := false }

/-- C6: when rendering fails the fault propagates with no effects at all and
the previous state (status included) is retained; when the config-file write
fails the fault propagates, no layer-apply and no restart happen after the
failed write, no successful write is recorded, and the previous state is
retained. -/
theorem render_or_write_failure_propagates
    (env : Env) (st : CharmState)
    (hvalid : get_invalid_configs env.config = [])
    (hconn : env.can_connect = true)
    (hstor : env.storagePresent = true) :
    (env.renderFn env.config = none →
      runConfigure env st = (noEffects, st, some Fault.renderError)) ∧
    (∀ c, env.renderFn env.config = some c → env.fileContent ≠ some c →
      env.writeOk = false →
      runConfigure env st =
        ({ noEffects with writeAttempts := 1 }, st, some Fault.writeError)) := by
  constructor
  · intro hr
    unfold runConfigure configure
    simp [hvalid, hconn, hstor, hr]
  · intro c hr hfile hw
    have hm : config_file_content_matches env c = false := content_matches_false env c hfile
    unfold runConfigure configure
    simp [hvalid, hconn, hstor, hr, hm, hw]

/-- C6 witness: the failure theorem applied at concrete render-failure and
write-failure environments. -/
theorem render_or_write_failure_propagates_witness :
    runConfigure sampleEnvRenderFail stIdle =
      (noEffects, stIdle, some Fault.renderError) ∧
    runConfigure sampleEnvWriteFail stIdle =
      ({ noEffects with writeAttempts := 1 }, stIdle, some Fault.writeError) :=
  ⟨(render_or_write_failure_propagates sampleEnvRenderFail stIdle
      (by decide) rfl rfl).1 rfl,
   (render_or_write_failure_propagates sampleEnvWriteFail stIdle
      (by decide) rfl rfl).2 "rendered-ue-config" rfl (by decide) rfl⟩

/-- C7: from a state with the stored run flag false, a faultless Start action
issues exactly one start command and sets the flag to true; a second immediate
Start issues zero additional start commands. -/
theorem start_action_idempotent (env : Env) (st : CharmState)
    (hrun : st.ue_running = false)
    (hok : (runConfigure env st).2.2 = none) :
    ∃ eff1 st1, on_start_ue_action env st = (eff1, st1, none) ∧
      eff1.startCalls = 1 ∧ st1.ue_running = true ∧
      ∃ eff2 st2, on_start_ue_action env st1 = (eff2, st2, none) ∧
        eff2.startCalls = 0 := by
  rcases h1 : runConfigure env st with ⟨eff, stm, f⟩
  have hf : f = none := by rw [h1] at hok; exact hok
  subst hf
  have hstm : stm.ue_running = false := by
    have h := runConfigure_running env st
    rw [h1] at h
    rw [hrun] at h
    exact h
  have heff : eff.startCalls = 0 := by
    have h := runConfigure_effects env st
    rw [h1] at h
    dsimp only at h
    rw [h]
    exact configure_startCalls env st.ue_running
  have hstart1 : on_start_ue_action env st =
      ({ eff with startCalls := eff.startCalls + 1 }, { stm with ue_running := true }, none) := by
    unfold on_start_ue_action
    rw [h1]
    simp [hstm]
  refine ⟨{ eff with startCalls := eff.startCalls + 1 }, { stm with ue_running := true },
    hstart1, by simp [heff], rfl, ?_⟩
  rcases h2 : runConfigure env { stm with ue_running := true } with ⟨eff2, stm2, f2⟩
  have hf2 : f2 = none := by
    have h := runConfigure_fault_indep env { stm with ue_running := true } st
    rw [h1, h2] at h
    dsimp only at h
    exact h
  subst hf2
  have hstm2 : stm2.ue_running = true := by
    have h := runConfigure_running env { stm with ue_running := true }
    rw [h2] at h
    exact h
  have heff2 : eff2.startCalls = 0 := by
    have h := runConfigure_effects env { stm with ue_running := true }
    rw [h2] at h
    dsimp only at h
    rw [h]
    exact configure_startCalls env _
  refine ⟨eff2, stm2, ?_, heff2⟩
  unfold on_start_ue_action
  rw [h2]
  simp [hstm2]

/-- C7 witness: the Start idempotence theorem applied at a concrete ready
environment and a stopped state. -/
theorem start_action_idempotent_witness :
    ∃ eff1 st1, on_start_ue_action sampleEnvMatch stIdle = (eff1, st1, none) ∧
      eff1.startCalls = 1 ∧ st1.ue_running = true ∧
      ∃ eff2 st2, on_start_ue_action sampleEnvMatch st1 = (eff2, st2, none) ∧
        eff2.startCalls = 0 :=
  start_action_idempotent sampleEnvMatch stIdle rfl (by decide)

/-- C8: from a state with the stored run flag true, a faultless Stop action
issues exactly one stop command and clears the flag; a second immediate Stop
issues zero additional stop commands. -/
theorem stop_action_idempotent (env : Env) (st : CharmState)
    (hrun : st.ue_running = true)
    (hok : (runConfigure env st).2.2 = none) :
    ∃ eff1 st1, on_stop_ue_action env st = (eff1, st1, none) ∧
      eff1.stopCalls = 1 ∧ st1.ue_running = false ∧
      ∃ eff2 st2, on_stop_ue_action env st1 = (eff2, st2, none) ∧
        eff2.stopCalls = 0 := by
  rcases h1 : runConfigure env st with ⟨eff, stm, f⟩
  have hf : f = none := by rw [h1] at hok; exact hok
  subst hf
  have hstm : stm.ue_running = true := by
    have h := runConfigure_running env st
    rw [h1] at h
    rw [hrun] at h
    exact h
  have heff : eff.stopCalls = 0 := by
    have h := runConfigure_effects env st
    rw [h1] at h
    dsimp only at h
    rw [h]
    exact configure_stopCalls env st.ue_running
  have hstop1 : on_stop_ue_action env st =
      ({ eff with stopCalls := eff.stopCalls + 1 }, { stm with ue_running := false }, none) := by
    unfold on_stop_ue_action
    rw [h1]
    simp [hstm]
  refine ⟨{ eff with stopCalls := eff.stopCalls + 1 }, { stm with ue_running := false },
    hstop1, by simp [heff], rfl, ?_⟩
  rcases h2 : runConfigure env { stm with ue_running := false } with ⟨eff2, stm2, f2⟩
  have hf2 : f2 = none := by
    have h := runConfigure_fault_indep env { stm with ue_running := false } st
    rw [h1, h2] at h
    dsimp only at h
    exact h
  subst hf2
  have hstm2 : stm2.ue_running = false := by
    have h := runConfigure_running env { stm with ue_running := false }
    rw [h2] at h
    exact h
  have heff2 : eff2.stopCalls = 0 := by
    have h := runConfigure_effects env { stm with ue_running := false }
    rw [h2] at h
    dsimp only at h
    rw [h]
    exact configure_stopCalls env _
  refine ⟨eff2, stm2, ?_, heff2⟩
  unfold on_stop_ue_action
  rw [h2]
  simp [hstm2]

/-- C8 witness: the Stop idempotence theorem applied at a concrete ready
environment and a running state. -/
theorem stop_action_idempotent_witness :
    ∃ eff1 st1, on_stop_ue_action sampleEnvMatch stRunning = (eff1, st1, none) ∧
      eff1.stopCalls = 1 ∧ st1.ue_running = false ∧
      ∃ eff2 st2, on_stop_ue_action sampleEnvMatch st1 = (eff2, st2, none) ∧
        eff2.stopCalls = 0 :=
  stop_action_idempotent sampleEnvMatch stRunning rfl (by decide)

/-- C9: plain reconciliation never changes the stored ue_running flag — after
any configure invocation, on success or on fault, the flag equals its value
before. -/
theorem reconciliation_preserves_run_flag (env : Env) (st : CharmState) :
    ((runConfigure env st).2.1).ue_running = st.ue_running :=
  runConfigure_running env st

/-- C10: while the stored run flag is false, no entry point ever issues a
restart command — reconciliation and both actions produce zero restart calls —
and on the explicit-restart request path the layer is still added without a
restart. -/
theorem no_restart_while_not_running (env : Env) (st : CharmState)
    (h : st.ue_running = false) :
    ((runConfigure env st).1).restartCalls = 0 ∧
    ((on_start_ue_action env st).1).restartCalls = 0 ∧
    ((on_stop_ue_action env st).1).restartCalls = 0 ∧
    configure_uesim_workload env false true = { noEffects with addLayerCalls := 1 } := by
  have hbase : ((runConfigure env st).1).restartCalls = 0 := by
    rw [runConfigure_effects env st, h]
    exact configure_restart_off env
  refine ⟨hbase, ?_, ?_, ?_⟩
  · unfold on_start_ue_action
    rcases h1 : runConfigure env st with ⟨eff, stm, f⟩
    have heff : eff.restartCalls = 0 := by rw [h1] at hbase; exact hbase
    cases f with
    | some e => simpa using heff
    | none =>
      dsimp only
      split <;> simpa using heff
  · unfold on_stop_ue_action
    rcases h1 : runConfigure env st with ⟨eff, stm, f⟩
    have heff : eff.restartCalls = 0 := by rw [h1] at hbase; exact hbase
    cases f with
    | some e => simpa using heff
    | none =>
      dsimp only
      split <;> simpa using heff
  · unfold configure_uesim_workload
    simp [noEffects]

/-- C10 witness: the no-restart theorem applied at a concrete environment and
a stopped state. -/
theorem no_restart_while_not_running_witness :
    ((runConfigure sampleEnvFresh stIdle).1).restartCalls = 0 ∧
    ((on_start_ue_action sampleEnvFresh stIdle).1).restartCalls = 0 ∧
    ((on_stop_ue_action sampleEnvFresh stIdle).1).restartCalls = 0 ∧
    configure_uesim_workload sampleEnvFresh false true =
      { noEffects with addLayerCalls := 1 } :=
  no_restart_while_not_running sampleEnvFresh stIdle rfl
